import Mathlib

/-!
# Verification of zkbench-rust: report schema and statistics engine

A shallow embedding of the zkbench-rust library (`src/schema.rs`,
`src/platform.rs`, `src/statistics.rs`) and proofs of the specification's
claims about it.

Modelling conventions:
* `f64` values are modelled as exact rationals (`ℚ`); the one square root in
  the statistics engine is taken in `ℝ` via `Real.sqrt`.
* `usize` is modelled as `Nat`.
* serde_json documents are modelled by the `Json` inductive below; a JSON
  object is an association list of key/value pairs in encoding order.
* Rust `HashMap`s appearing in the schema types are modelled as association
  lists (`List (String × _)`).
* The serde derive encode/decode behaviour (field omission via
  `skip_serializing_if`, defaulting via `default`, missing-field errors,
  tolerance of unknown fields) is spelled out by the `encode*`/`decode*`
  functions, which mirror the attributes on the Rust struct declarations.
* Fallible operations return `Except`; the decode error type is named
  `SchemaViolation` after the spec's error taxonomy, and the statistics
  engine's empty-input panic is modelled as the `StatError.invalidInput`
  error surfaced to the caller.
* Process/environment probes (git commit lookup, platform detection) are
  modelled as explicit input parameters.
-/

/-- A structural (JSON) document value. Objects keep their fields as an
association list in encoding order. -/
inductive Json where
  | null
  | bool (b : Bool)
  | num (q : ℚ)
  | str (s : String)
  | arr (elems : List Json)
  | obj (fields : List (String × Json))

/-- Decode-time error taxonomy of the spec: a required field is missing, or a
field holds a value of the wrong structural type. -/
inductive SchemaViolation where
  | missingField (name : String)
  | typeMismatch
deriving DecidableEq

/-- The keys of a JSON object (empty for non-objects). -/
def Json.keys : Json → List String
  | .obj fields => fields.map Prod.fst
  | _ => []

/-- Expect a JSON object, returning its field list. -/
def Json.asObj : Json → Except SchemaViolation (List (String × Json))
  | .obj fields => .ok fields
  | _ => .error .typeMismatch

/-- Expect a JSON number (an `f64` in the Rust schema, an exact `ℚ` here). -/
def Json.asNum : Json → Except SchemaViolation ℚ
  | .num q => .ok q
  | _ => .error .typeMismatch

/-- Expect a JSON string. -/
def Json.asStr : Json → Except SchemaViolation String
  | .str s => .ok s
  | _ => .error .typeMismatch

/-- Expect a JSON boolean. -/
def Json.asBool : Json → Except SchemaViolation Bool
  | .bool b => .ok b
  | _ => .error .typeMismatch

/-- Expect a non-negative integral JSON number (a `usize` in the Rust schema). -/
def Json.asNat : Json → Except SchemaViolation Nat
  | .num q => if q.den = 1 ∧ 0 ≤ q.num then .ok q.num.toNat else .error .typeMismatch
  | _ => .error .typeMismatch

/-- Fetch a required field: serde derive reports a missing required field by
name. -/
def reqField (fields : List (String × Json)) (k : String) :
    Except SchemaViolation Json :=
  match List.lookup k fields with
  | some j => .ok j
  | none => .error (.missingField k)

/-- Whether a JSON value is `null`. -/
def Json.isNull : Json → Bool
  | .null => true
  | _ => false

/-- Decode an optional field: a missing field or an explicit `null` decodes to
`none` (serde's default handling of `Option` fields). -/
def decodeOptWith (d : Json → Except SchemaViolation α)
    (fields : List (String × Json)) (k : String) :
    Except SchemaViolation (Option α) :=
  match List.lookup k fields with
  | none => .ok none
  | some j => if j.isNull then .ok none else (d j).map some

/-- `MetricValue` from `src/schema.rs`: a benchmark metric with optional
confidence bounds. -/
structure MetricValue where
  value : ℚ
  unit : String
  lower_value : Option ℚ
  upper_value : Option ℚ
deriving DecidableEq

/-- `MetricValue::new`: value and unit only, no bounds. -/
def MetricValue.new (value : ℚ) (unit : String) : MetricValue :=
  { value := value, unit := unit, lower_value := none, upper_value := none }

/-- `MetricValue::with_bounds`: value, unit and both confidence bounds. -/
def MetricValue.with_bounds (value : ℚ) (unit : String) (lower upper : ℚ) :
    MetricValue :=
  { value := value, unit := unit, lower_value := some lower,
    upper_value := some upper }

/-- `TestVectors` from `src/schema.rs`. -/
structure TestVectors where
  input_hash : String
  output_hash : String
  verified : Bool
deriving DecidableEq

/-- `BenchmarkResult` from `src/schema.rs`. The free-form `metadata` bag
(`HashMap<String, Value>`) is an association list of arbitrary JSON values. -/
structure BenchmarkResult where
  latency : Option MetricValue
  memory : Option MetricValue
  throughput : Option MetricValue
  iterations : Nat
  test_vectors : Option TestVectors
  metadata : List (String × Json)

/-- `is_zero` from `src/schema.rs`, the `skip_serializing_if` predicate on
`iterations`. -/
def is_zero (val : Nat) : Bool := val == 0

/-- `Platform` from `src/platform.rs`. -/
structure Platform where
  os : String
  arch : String
  cpu_count : Nat
  cpu_vendor : Option String
  gpu_vendor : Option String
deriving DecidableEq

/-- `Platform::current` from `src/platform.rs`, with the environment probes as
inputs: `parallelism` models `std::thread::available_parallelism()` (which
yields a `NonZeroUsize` on success, hence `ℕ+`), and the vendor strings model
`get_cpu_vendor()` / `get_gpu_vendor()`. `cpu_count` falls back to 1 when the
parallelism probe fails. -/
def Platform.current (os arch : String) (parallelism : Option ℕ+)
    (cpuVendor gpuVendor : Option String) : Platform :=
  { os := os
    arch := arch
    cpu_count := (parallelism.map fun p => (p : Nat)).getD 1
    cpu_vendor := cpuVendor
    gpu_vendor := gpuVendor }

/-- `Metadata` from `src/schema.rs`. -/
structure Metadata where
  implementation : String
  version : String
  commit_sha : String
  timestamp : String
  platform : Platform
deriving DecidableEq

/-- `BenchmarkReport` from `src/schema.rs`: the top-level document. The
`benchmarks` map is an association list keyed by benchmark name. -/
structure BenchmarkReport where
  metadata : Metadata
  benchmarks : List (String × BenchmarkResult)

/-- Encode fields of an `Option`-typed struct field: omitted entirely when
absent (`skip_serializing_if = "Option::is_none"`). -/
def optFields (k : String) (enc : α → Json) : Option α → List (String × Json)
  | some a => [(k, enc a)]
  | none => []

/-- serde encoding of `MetricValue`: both bounds are omitted when absent. -/
def encodeMetricValue (m : MetricValue) : Json :=
  .obj ([("value", .num m.value), ("unit", .str m.unit)]
    ++ optFields "lower_value" Json.num m.lower_value
    ++ optFields "upper_value" Json.num m.upper_value)

/-- serde decoding of `MetricValue`: `value` and `unit` required, bounds
optional. -/
def decodeMetricValue (j : Json) : Except SchemaViolation MetricValue := do
  let fields ← j.asObj
  let value ← (← reqField fields "value").asNum
  let unit ← (← reqField fields "unit").asStr
  let lower_value ← decodeOptWith Json.asNum fields "lower_value"
  let upper_value ← decodeOptWith Json.asNum fields "upper_value"
  pure { value := value, unit := unit, lower_value := lower_value,
         upper_value := upper_value }

/-- serde encoding of `TestVectors`: all three fields always present. -/
def encodeTestVectors (t : TestVectors) : Json :=
  .obj [("input_hash", .str t.input_hash), ("output_hash", .str t.output_hash),
        ("verified", .bool t.verified)]

/-- serde decoding of `TestVectors`: all three fields required. -/
def decodeTestVectors (j : Json) : Except SchemaViolation TestVectors := do
  let fields ← j.asObj
  let input_hash ← (← reqField fields "input_hash").asStr
  let output_hash ← (← reqField fields "output_hash").asStr
  let verified ← (← reqField fields "verified").asBool
  pure { input_hash := input_hash, output_hash := output_hash,
         verified := verified }

/-- serde encoding of `BenchmarkResult`: the three metrics and `test_vectors`
are omitted when absent, `iterations` is omitted when `is_zero` holds, and the
`metadata` bag is omitted when empty. -/
def encodeBenchmarkResult (r : BenchmarkResult) : Json :=
  .obj (optFields "latency" encodeMetricValue r.latency
    ++ optFields "memory" encodeMetricValue r.memory
    ++ optFields "throughput" encodeMetricValue r.throughput
    ++ (if is_zero r.iterations then []
        else [("iterations", Json.num (r.iterations : ℚ))])
    ++ optFields "test_vectors" encodeTestVectors r.test_vectors
    ++ (if r.metadata.isEmpty then [] else [("metadata", Json.obj r.metadata)]))

/-- serde decoding of `BenchmarkResult`: every field tolerates absence;
`iterations` defaults to 0 and `metadata` to the empty bag (`#[serde(default)]`). -/
def decodeBenchmarkResult (j : Json) : Except SchemaViolation BenchmarkResult := do
  let fields ← j.asObj
  let latency ← decodeOptWith decodeMetricValue fields "latency"
  let memory ← decodeOptWith decodeMetricValue fields "memory"
  let throughput ← decodeOptWith decodeMetricValue fields "throughput"
  let iterations ←
    match List.lookup "iterations" fields with
    | none => pure 0
    | some v => v.asNat
  let test_vectors ← decodeOptWith decodeTestVectors fields "test_vectors"
  let metadata ←
    match List.lookup "metadata" fields with
    | none => pure []
    | some v => v.asObj
  pure { latency := latency, memory := memory, throughput := throughput,
         iterations := iterations, test_vectors := test_vectors,
         metadata := metadata }

/-- serde encoding of `Platform`: the two vendor fields are omitted when
absent. -/
def encodePlatform (p : Platform) : Json :=
  .obj ([("os", .str p.os), ("arch", .str p.arch),
         ("cpu_count", .num (p.cpu_count : ℚ))]
    ++ optFields "cpu_vendor" Json.str p.cpu_vendor
    ++ optFields "gpu_vendor" Json.str p.gpu_vendor)

/-- serde decoding of `Platform`: `os`, `arch`, `cpu_count` required, vendors
optional. -/
def decodePlatform (j : Json) : Except SchemaViolation Platform := do
  let fields ← j.asObj
  let os ← (← reqField fields "os").asStr
  let arch ← (← reqField fields "arch").asStr
  let cpu_count ← (← reqField fields "cpu_count").asNat
  let cpu_vendor ← decodeOptWith Json.asStr fields "cpu_vendor"
  let gpu_vendor ← decodeOptWith Json.asStr fields "gpu_vendor"
  pure { os := os, arch := arch, cpu_count := cpu_count,
         cpu_vendor := cpu_vendor, gpu_vendor := gpu_vendor }

/-- serde encoding of `Metadata`: all five fields always present. -/
def encodeMetadata (m : Metadata) : Json :=
  .obj [("implementation", .str m.implementation),
        ("version", .str m.version),
        ("commit_sha", .str m.commit_sha),
        ("timestamp", .str m.timestamp),
        ("platform", encodePlatform m.platform)]

/-- serde decoding of `Metadata`: all five fields required. -/
def decodeMetadata (j : Json) : Except SchemaViolation Metadata := do
  let fields ← j.asObj
  let implementation ← (← reqField fields "implementation").asStr
  let version ← (← reqField fields "version").asStr
  let commit_sha ← (← reqField fields "commit_sha").asStr
  let timestamp ← (← reqField fields "timestamp").asStr
  let platform ← decodePlatform (← reqField fields "platform")
  pure { implementation := implementation, version := version,
         commit_sha := commit_sha, timestamp := timestamp,
         platform := platform }

/-- serde encoding of `BenchmarkReport`: the benchmark map becomes a JSON
object keyed by benchmark name. -/
def encodeBenchmarkReport (r : BenchmarkReport) : Json :=
  .obj [("metadata", encodeMetadata r.metadata),
        ("benchmarks",
         .obj (r.benchmarks.map fun p => (p.1, encodeBenchmarkResult p.2)))]

/-- Decode every value of the `benchmarks` object as a `BenchmarkResult`,
visiting the entries in document order (serde's map visitor). -/
def decodeBenchmarks :
    List (String × Json) →
      Except SchemaViolation (List (String × BenchmarkResult))
  | [] => .ok []
  | (k, j) :: rest => do
    let r ← decodeBenchmarkResult j
    let rest' ← decodeBenchmarks rest
    pure ((k, r) :: rest')

/-- serde decoding of `BenchmarkReport`: both fields required; every value of
the `benchmarks` object is decoded as a `BenchmarkResult`. -/
def decodeBenchmarkReport (j : Json) :
    Except SchemaViolation BenchmarkReport := do
  let fields ← j.asObj
  let metadata ← decodeMetadata (← reqField fields "metadata")
  let bfields ← (← reqField fields "benchmarks").asObj
  let benchmarks ← decodeBenchmarks bfields
  pure { metadata := metadata, benchmarks := benchmarks }

/-- Error taxonomy of the statistics engine: `calculate_statistics` fails on
an empty sample sequence. -/
inductive StatError where
  | invalidInput
deriving DecidableEq

/-- `calculate_statistics` from `src/statistics.rs`: mean and sample standard
deviation of a sample sequence. The empty-sequence assertion failure is
modelled as the `invalidInput` error surfaced to the caller. Sums and the
mean are exact rationals; the final square root is taken in `ℝ`. -/
noncomputable def calculate_statistics (values : List ℚ) :
    Except StatError (ℚ × ℝ) :=
  if values.isEmpty then .error .invalidInput
  else
    let n : ℚ := values.length
    let mean := values.sum / n
    if values.length < 2 then .ok (mean, 0)
    else
      let variance := (values.map fun x => (x - mean) ^ 2).sum / (n - 1)
      .ok (mean, Real.sqrt variance)

/-- `calculate_confidence_interval` from `src/statistics.rs`: z-score lookup
with tolerance 0.001 around the two recognized confidence levels, silent
fallback to z = 2.0 otherwise. -/
def calculate_confidence_interval (mean stdev confidence : ℚ) : ℚ × ℚ :=
  let z : ℚ :=
    if |confidence - 0.95| < 0.001 then 2.0
    else if |confidence - 0.99| < 0.001 then 2.576
    else 2.0
  let margin := z * stdev
  (mean - margin, mean + margin)

/-- Spec-side definition (§4.1): the arithmetic average of the samples. -/
def specMean (values : List ℚ) : ℚ := values.sum / values.length

/-- Spec-side definition (§4.1): the sample standard deviation with Bessel's
correction, `sqrt (Σ (x - mean)^2 / (n - 1))`. -/
noncomputable def specSampleStdev (values : List ℚ) : ℝ :=
  Real.sqrt (((values.map fun x => (x - specMean values) ^ 2).sum /
    ((values.length : ℚ) - 1) : ℚ))

/-! ## Helper lemmas -/

/-- Prepending a field with a different key leaves a lookup unchanged. -/
theorem lookup_cons_ne {β : Type} (k k' : String) (j : β)
    (fields : List (String × β)) (h : k' ≠ k) :
    List.lookup k' ((k, j) :: fields) = List.lookup k' fields := by
  have hb : (k' == k) = false := beq_eq_false_iff_ne.mpr h
  simp [List.lookup, hb]

/-- An encoded `MetricValue` is an object, never `null`. -/
theorem encodeMetricValue_isNull (m : MetricValue) :
    (encodeMetricValue m).isNull = false := rfl

/-- An encoded `TestVectors` is an object, never `null`. -/
theorem encodeTestVectors_isNull (t : TestVectors) :
    (encodeTestVectors t).isNull = false := rfl

/-- Encode/decode round-trip for `MetricValue`. -/
theorem metricValue_roundtrip (m : MetricValue) :
    decodeMetricValue (encodeMetricValue m) = .ok m := by
  cases m with
  | mk v u lo hi =>
    cases lo <;> cases hi <;>
      simp [encodeMetricValue, decodeMetricValue, optFields, reqField,
            decodeOptWith, Json.asObj, Json.asNum, Json.asStr, Json.isNull,
            List.lookup, bind, Except.bind, pure, Except.pure, Except.map]

/-- Encode/decode round-trip for `TestVectors`. -/
theorem testVectors_roundtrip (t : TestVectors) :
    decodeTestVectors (encodeTestVectors t) = .ok t := by
  simp [encodeTestVectors, decodeTestVectors, reqField, Json.asObj, Json.asStr,
        Json.asBool, List.lookup, bind, Except.bind, pure, Except.pure]

/-- Encode/decode round-trip for `BenchmarkResult`, including the
`iterations` zero-omission rule and the empty-`metadata` omission rule. -/
theorem benchmarkResult_roundtrip (r : BenchmarkResult) :
    decodeBenchmarkResult (encodeBenchmarkResult r) = .ok r := by
  obtain ⟨lat, mem, thr, it, tv, md⟩ := r
  have hit : it = 0 ∨ it ≠ 0 := Decidable.em _
  cases lat <;> cases mem <;> cases thr <;> cases tv <;> cases md <;>
      rcases hit with h | h <;>
    simp [encodeBenchmarkResult, decodeBenchmarkResult, optFields, reqField,
          decodeOptWith, Json.asObj, Json.asNat, is_zero, h, List.lookup, bind,
          Except.bind, pure, Except.pure, Except.map, metricValue_roundtrip,
          testVectors_roundtrip, encodeMetricValue_isNull,
          encodeTestVectors_isNull, Rat.den_natCast, Rat.num_natCast,
          List.isEmpty]

/-- Encode/decode round-trip for `Platform`. -/
theorem platform_roundtrip (p : Platform) :
    decodePlatform (encodePlatform p) = .ok p := by
  cases p with
  | mk os arch cc cv gv =>
    cases cv <;> cases gv <;>
      simp [encodePlatform, decodePlatform, optFields, reqField, decodeOptWith,
            Json.asObj, Json.asNum, Json.asStr, Json.asNat, Json.isNull,
            List.lookup, bind, Except.bind, pure, Except.pure, Except.map,
            Rat.den_natCast, Rat.num_natCast]

/-- Encode/decode round-trip for `Metadata`. -/
theorem metadata_roundtrip (m : Metadata) :
    decodeMetadata (encodeMetadata m) = .ok m := by
  simp [encodeMetadata, decodeMetadata, reqField, Json.asObj, Json.asStr,
        List.lookup, bind, Except.bind, pure, Except.pure, platform_roundtrip]

/-- Encode/decode round-trip for the benchmark map of a report. -/
theorem benchmarks_roundtrip (bs : List (String × BenchmarkResult)) :
    decodeBenchmarks (bs.map fun p => (p.1, encodeBenchmarkResult p.2)) =
      Except.ok bs := by
  induction bs with
  | nil => rfl
  | cons hd tl ih =>
    simp [decodeBenchmarks, benchmarkResult_roundtrip, bind, Except.bind, pure,
          Except.pure, ih]

/-! ## Claims -/

/-- Claim C1: round-trip law. For every `BenchmarkReport` (and for every
`Metadata`, `Platform`, `BenchmarkResult`, `MetricValue` and `TestVectors`
value), decoding the encoded document yields exactly the original value: all
fields present at construction are preserved, and every optional field absent
at construction decodes back to absent. -/
theorem benchmark_report_roundtrip :
    (∀ r : BenchmarkReport,
        decodeBenchmarkReport (encodeBenchmarkReport r) = .ok r) ∧
    (∀ m : Metadata, decodeMetadata (encodeMetadata m) = .ok m) ∧
    (∀ p : Platform, decodePlatform (encodePlatform p) = .ok p) ∧
    (∀ r : BenchmarkResult,
        decodeBenchmarkResult (encodeBenchmarkResult r) = .ok r) ∧
    (∀ m : MetricValue, decodeMetricValue (encodeMetricValue m) = .ok m) ∧
    (∀ t : TestVectors, decodeTestVectors (encodeTestVectors t) = .ok t) := by
  refine ⟨?_, metadata_roundtrip, platform_roundtrip, benchmarkResult_roundtrip,
          metricValue_roundtrip, testVectors_roundtrip⟩
  intro r
  simp [encodeBenchmarkReport, decodeBenchmarkReport, reqField, Json.asObj,
        List.lookup, bind, Except.bind, pure, Except.pure, metadata_roundtrip,
        benchmarks_roundtrip]

/-- Claim C2: for every non-empty sample list, `calculate_statistics` returns
the arithmetic mean together with 0 for a single sample and the Bessel-corrected
sample standard deviation otherwise; on `[1, 2, 3, 4, 5]` it returns
`(3, sqrt 2.5)` with `sqrt 2.5` within `0.0001` of `1.5811`. -/
theorem calculate_statistics_correct :
    (∀ values : List ℚ, values ≠ [] →
        calculate_statistics values =
          .ok (specMean values,
               if values.length = 1 then (0 : ℝ) else specSampleStdev values)) ∧
    (∀ x : ℚ, calculate_statistics [x] = .ok (x, 0)) ∧
    calculate_statistics [1, 2, 3, 4, 5] = .ok (3, Real.sqrt (5 / 2)) ∧
    |Real.sqrt (5 / 2) - 1.5811| < 0.0001 := by
  have hmain : ∀ values : List ℚ, values ≠ [] →
      calculate_statistics values =
        .ok (specMean values,
             if values.length = 1 then (0 : ℝ) else specSampleStdev values) := by
    intro values hne
    have hni : values.isEmpty = false := by simpa [List.isEmpty_iff] using hne
    have hn0 : values.length ≠ 0 := by simpa [List.length_eq_zero] using hne
    rcases Nat.lt_or_ge values.length 2 with hlen | hlen
    · have h1 : values.length = 1 := by omega
      simp [calculate_statistics, hni, h1, specMean]
    · have h1 : values.length ≠ 1 := by omega
      have h2 : ¬ values.length < 2 := by omega
      simp [calculate_statistics, hni, h2, h1, specMean, specSampleStdev]
  refine ⟨hmain, ?_, ?_, ?_⟩
  · intro x
    simp [calculate_statistics, specMean]
  · have h := hmain [1, 2, 3, 4, 5] (by simp)
    rw [h]
    norm_num [specMean, specSampleStdev]
  · have h1 : (1.5811 : ℝ) < Real.sqrt (5 / 2) := by
      rw [Real.lt_sqrt (by norm_num)]
      norm_num
    have h2 : Real.sqrt (5 / 2) < 1.5812 := by
      rw [Real.sqrt_lt' (by norm_num)]
      norm_num
    rw [abs_sub_lt_iff]
    constructor <;> linarith

/-- Witness for C2: the general clause of `calculate_statistics_correct`
instantiated at the concrete sample list `[1, 2, 3, 4, 5]`. -/
theorem calculate_statistics_correct_witness :
    calculate_statistics [1, 2, 3, 4, 5] =
      .ok (specMean [1, 2, 3, 4, 5],
           if ([(1 : ℚ), 2, 3, 4, 5]).length = 1 then (0 : ℝ)
           else specSampleStdev [1, 2, 3, 4, 5]) :=
  calculate_statistics_correct.1 [1, 2, 3, 4, 5] (by simp)

/-- Claim C3: `calculate_statistics` on the empty sample sequence fails with
the `invalidInput` condition surfaced to the caller, and it succeeds on every
non-empty sequence. -/
theorem calculate_statistics_empty_invalid :
    calculate_statistics [] = .error .invalidInput ∧
    ∀ values : List ℚ, values ≠ [] → ∃ p, calculate_statistics values = .ok p := by
  constructor
  · simp [calculate_statistics]
  · intro values hne
    have hni : values.isEmpty = false := by simpa [List.isEmpty_iff] using hne
    by_cases hlen : values.length < 2
    · refine ⟨(values.sum / values.length, 0), ?_⟩
      simp [calculate_statistics, hni, hlen]
    · refine ⟨(values.sum / values.length,
        Real.sqrt (((values.map fun x => (x - values.sum / values.length) ^ 2).sum /
          ((values.length : ℚ) - 1) : ℚ))), ?_⟩
      simp [calculate_statistics, hni, hlen]

/-- Witness for C3: the success clause instantiated at the one-element list
`[7]`. -/
theorem calculate_statistics_empty_invalid_witness :
    ∃ p, calculate_statistics [7] = .ok p :=
  calculate_statistics_empty_invalid.2 [7] (by simp)

/-- Claim C4: `calculate_confidence_interval` never fails and returns
`(mean - z * stdev, mean + z * stdev)` with `z = 2` within tolerance 0.001 of
confidence 0.95, `z = 2.576` within tolerance of 0.99, and `z = 2` as silent
fallback for every other confidence; in particular it maps `(100, 10, 0.95)`
to `(80, 120)` and `(100, 10, 0.99)` to `(74.24, 125.76)`. -/
theorem calculate_confidence_interval_zscore :
    (∀ mean stdev confidence : ℚ, |confidence - 0.95| < 0.001 →
        calculate_confidence_interval mean stdev confidence =
          (mean - 2 * stdev, mean + 2 * stdev)) ∧
    (∀ mean stdev confidence : ℚ, |confidence - 0.99| < 0.001 →
        calculate_confidence_interval mean stdev confidence =
          (mean - 2.576 * stdev, mean + 2.576 * stdev)) ∧
    (∀ mean stdev confidence : ℚ,
        ¬ |confidence - 0.95| < 0.001 → ¬ |confidence - 0.99| < 0.001 →
        calculate_confidence_interval mean stdev confidence =
          (mean - 2 * stdev, mean + 2 * stdev)) ∧
    calculate_confidence_interval 100 10 0.95 = (80, 120) ∧
    calculate_confidence_interval 100 10 0.99 = (74.24, 125.76) := by
  refine ⟨?_, ?_, ?_, ?_, ?_⟩
  · intro mean stdev confidence h
    simp only [calculate_confidence_interval, if_pos h]
    norm_num
  · intro mean stdev confidence h99
    have h95 : ¬ |confidence - 0.95| < 0.001 := by
      rw [abs_lt] at h99 ⊢
      intro h
      rcases h with ⟨ha, hb⟩
      rcases h99 with ⟨hc, hd⟩
      linarith
    simp only [calculate_confidence_interval, if_neg h95, if_pos h99]
  · intro mean stdev confidence h95 h99
    simp only [calculate_confidence_interval, if_neg h95, if_neg h99]
    norm_num
  · have h : |(0.95 : ℚ) - 0.95| < 0.001 := by norm_num
    simp only [calculate_confidence_interval, if_pos h]
    norm_num
  · have h95 : ¬ |(0.99 : ℚ) - 0.95| < 0.001 := by
      rw [abs_lt]
      norm_num
    have h99 : |(0.99 : ℚ) - 0.99| < 0.001 := by norm_num
    simp only [calculate_confidence_interval, if_neg h95, if_pos h99]
    norm_num

/-- Witness for C4: the recognized-level clause instantiated at
`(100, 10, 0.95)`. -/
theorem calculate_confidence_interval_zscore_witness :
    calculate_confidence_interval 100 10 0.95 = (100 - 2 * 10, 100 + 2 * 10) :=
  calculate_confidence_interval_zscore.1 100 10 0.95 (by norm_num)

/-- Claim C5: the `iterations` default-omit law. Encoding a
`BenchmarkResult` with `iterations = 0` produces a document with no
`iterations` key, encoding one with nonzero `iterations` includes the key,
and any document lacking the `iterations` key that decodes successfully
decodes to `iterations = 0`. -/
theorem iterations_default_omit :
    (∀ r : BenchmarkResult, r.iterations = 0 →
        "iterations" ∉ (encodeBenchmarkResult r).keys) ∧
    (∀ r : BenchmarkResult, r.iterations ≠ 0 →
        "iterations" ∈ (encodeBenchmarkResult r).keys) ∧
    (∀ (fields : List (String × Json)) (r : BenchmarkResult),
        List.lookup "iterations" fields = none →
        decodeBenchmarkResult (.obj fields) = .ok r → r.iterations = 0) := by
  refine ⟨?_, ?_, ?_⟩
  · intro r h
    obtain ⟨lat, mem, thr, it, tv, md⟩ := r
    simp at h
    subst h
    cases lat <;> cases mem <;> cases thr <;> cases tv <;> cases md <;>
      simp [encodeBenchmarkResult, Json.keys, optFields, is_zero]
  · intro r h
    obtain ⟨lat, mem, thr, it, tv, md⟩ := r
    simp at h
    cases lat <;> cases mem <;> cases thr <;> cases tv <;> cases md <;>
      simp [encodeBenchmarkResult, Json.keys, optFields, is_zero, h]
  · intro fields r hl hdec
    simp only [decodeBenchmarkResult, bind, Except.bind, pure, Except.pure,
               Json.asObj, hl] at hdec
    repeat' split at hdec
    all_goals simp_all
    all_goals (cases hdec; rfl)

/-- Witness for C5: the three clauses of `iterations_default_omit`
instantiated at concrete `BenchmarkResult` values and at the empty
document. -/
theorem iterations_default_omit_witness :
    "iterations" ∉ (encodeBenchmarkResult
        { latency := none, memory := none, throughput := none,
          iterations := 0, test_vectors := none, metadata := [] }).keys ∧
    "iterations" ∈ (encodeBenchmarkResult
        { latency := none, memory := none, throughput := none,
          iterations := 5, test_vectors := none, metadata := [] }).keys ∧
    ({ latency := none, memory := none, throughput := none, iterations := 0,
       test_vectors := none, metadata := [] } : BenchmarkResult).iterations = 0 :=
  ⟨iterations_default_omit.1
      { latency := none, memory := none, throughput := none, iterations := 0,
        test_vectors := none, metadata := [] } rfl,
   iterations_default_omit.2.1
      { latency := none, memory := none, throughput := none, iterations := 5,
        test_vectors := none, metadata := [] } (by decide),
   iterations_default_omit.2.2 []
      { latency := none, memory := none, throughput := none, iterations := 0,
        test_vectors := none, metadata := [] } rfl rfl⟩

/-- Claim C6: a document missing a non-optional required field fails to
decode with a `SchemaViolation` identifying the missing field: any
`MetricValue` document without a `value` key fails, `{"unit":"ns"}` fails
with `missingField "value"`, and the `Platform` document
`{"os":"linux","arch":"x86_64","cpu_count":8}` decodes successfully with both
vendor fields absent. -/
theorem missing_required_field_fails :
    (∀ fields : List (String × Json), List.lookup "value" fields = none →
        decodeMetricValue (.obj fields) = .error (.missingField "value")) ∧
    (∀ fields : List (String × Json), List.lookup "os" fields = none →
        decodePlatform (.obj fields) = .error (.missingField "os")) ∧
    decodeMetricValue (.obj [("unit", .str "ns")]) =
      .error (.missingField "value") ∧
    decodePlatform (.obj [("os", .str "linux"), ("arch", .str "x86_64"),
        ("cpu_count", .num 8)]) =
      .ok { os := "linux", arch := "x86_64", cpu_count := 8,
            cpu_vendor := none, gpu_vendor := none } := by
  refine ⟨?_, ?_, rfl, rfl⟩
  · intro fields hl
    simp [decodeMetricValue, Json.asObj, reqField, hl, bind, Except.bind]
  · intro fields hl
    simp [decodePlatform, Json.asObj, reqField, hl, bind, Except.bind]

/-- Witness for C6: the two general clauses instantiated at concrete
documents that lack the required field. -/
theorem missing_required_field_fails_witness :
    decodeMetricValue (.obj [("unit", .str "ns")]) =
      .error (.missingField "value") ∧
    decodePlatform (.obj [("arch", .str "x86_64")]) =
      .error (.missingField "os") :=
  ⟨missing_required_field_fails.1 [("unit", .str "ns")] rfl,
   missing_required_field_fails.2.1 [("arch", .str "x86_64")] rfl⟩

/-- Claim C7 (amended): every `Platform` built by `Platform::current` has
`cpu_count ≥ 1`, whatever the probe outcomes; decoding, by contrast, performs
no range check (see `decoded_platform_cpu_count_zero`). -/
theorem platform_current_cpu_count_pos :
    ∀ (os arch : String) (par : Option ℕ+) (cv gv : Option String),
      1 ≤ (Platform.current os arch par cv gv).cpu_count := by
  intro os arch par cv gv
  cases par with
  | none => simp [Platform.current]
  | some p =>
    simp [Platform.current]
    exact p.one_le

/-- Counterexample to C7 as stated: decoding a document with `cpu_count` 0
succeeds and yields a `Platform` whose `cpu_count` is 0, so not every
`Platform` produced by an operation of the system has `cpu_count ≥ 1`. -/
theorem decoded_platform_cpu_count_zero :
    decodePlatform (.obj [("os", .str "linux"), ("arch", .str "x86_64"),
        ("cpu_count", .num 0)]) =
      .ok { os := "linux", arch := "x86_64", cpu_count := 0,
            cpu_vendor := none, gpu_vendor := none } ∧
    ¬ 1 ≤ ({ os := "linux", arch := "x86_64", cpu_count := 0,
             cpu_vendor := none, gpu_vendor := none } : Platform).cpu_count :=
  ⟨rfl, by decide⟩

/-- Claim C8: forward compatibility. For each entity type of the schema,
prepending an additional field with an unrecognized key to a document leaves
the decode result unchanged: unknown fields are silently ignored. -/
theorem unknown_fields_ignored :
    (∀ (k : String) (j : Json) (fields : List (String × Json)),
        k ∉ ["value", "unit", "lower_value", "upper_value"] →
        decodeMetricValue (.obj ((k, j) :: fields)) =
          decodeMetricValue (.obj fields)) ∧
    (∀ (k : String) (j : Json) (fields : List (String × Json)),
        k ∉ ["input_hash", "output_hash", "verified"] →
        decodeTestVectors (.obj ((k, j) :: fields)) =
          decodeTestVectors (.obj fields)) ∧
    (∀ (k : String) (j : Json) (fields : List (String × Json)),
        k ∉ ["latency", "memory", "throughput", "iterations", "test_vectors",
             "metadata"] →
        decodeBenchmarkResult (.obj ((k, j) :: fields)) =
          decodeBenchmarkResult (.obj fields)) ∧
    (∀ (k : String) (j : Json) (fields : List (String × Json)),
        k ∉ ["os", "arch", "cpu_count", "cpu_vendor", "gpu_vendor"] →
        decodePlatform (.obj ((k, j) :: fields)) =
          decodePlatform (.obj fields)) ∧
    (∀ (k : String) (j : Json) (fields : List (String × Json)),
        k ∉ ["implementation", "version", "commit_sha", "timestamp",
             "platform"] →
        decodeMetadata (.obj ((k, j) :: fields)) =
          decodeMetadata (.obj fields)) ∧
    (∀ (k : String) (j : Json) (fields : List (String × Json)),
        k ∉ ["metadata", "benchmarks"] →
        decodeBenchmarkReport (.obj ((k, j) :: fields)) =
          decodeBenchmarkReport (.obj fields)) := by
  refine ⟨?_, ?_, ?_, ?_, ?_, ?_⟩
  · intro k j fields hk
    simp only [List.mem_cons, List.mem_singleton, not_or] at hk
    obtain ⟨h1, h2, h3, h4, -⟩ := hk
    simp only [decodeMetricValue, Json.asObj, reqField, bind, Except.bind,
               pure, Except.pure, decodeOptWith,
               lookup_cons_ne k "value" j fields (Ne.symm h1),
               lookup_cons_ne k "unit" j fields (Ne.symm h2),
               lookup_cons_ne k "lower_value" j fields (Ne.symm h3),
               lookup_cons_ne k "upper_value" j fields (Ne.symm h4)]
  · intro k j fields hk
    simp only [List.mem_cons, List.mem_singleton, not_or] at hk
    obtain ⟨h1, h2, h3, -⟩ := hk
    simp only [decodeTestVectors, Json.asObj, reqField, bind, Except.bind,
               pure, Except.pure,
               lookup_cons_ne k "input_hash" j fields (Ne.symm h1),
               lookup_cons_ne k "output_hash" j fields (Ne.symm h2),
               lookup_cons_ne k "verified" j fields (Ne.symm h3)]
  · intro k j fields hk
    simp only [List.mem_cons, List.mem_singleton, not_or] at hk
    obtain ⟨h1, h2, h3, h4, h5, h6, -⟩ := hk
    simp only [decodeBenchmarkResult, Json.asObj, reqField, bind, Except.bind,
               pure, Except.pure, decodeOptWith,
               lookup_cons_ne k "latency" j fields (Ne.symm h1),
               lookup_cons_ne k "memory" j fields (Ne.symm h2),
               lookup_cons_ne k "throughput" j fields (Ne.symm h3),
               lookup_cons_ne k "iterations" j fields (Ne.symm h4),
               lookup_cons_ne k "test_vectors" j fields (Ne.symm h5),
               lookup_cons_ne k "metadata" j fields (Ne.symm h6)]
  · intro k j fields hk
    simp only [List.mem_cons, List.mem_singleton, not_or] at hk
    obtain ⟨h1, h2, h3, h4, h5, -⟩ := hk
    simp only [decodePlatform, Json.asObj, reqField, bind, Except.bind, pure,
               Except.pure, decodeOptWith,
               lookup_cons_ne k "os" j fields (Ne.symm h1),
               lookup_cons_ne k "arch" j fields (Ne.symm h2),
               lookup_cons_ne k "cpu_count" j fields (Ne.symm h3),
               lookup_cons_ne k "cpu_vendor" j fields (Ne.symm h4),
               lookup_cons_ne k "gpu_vendor" j fields (Ne.symm h5)]
  · intro k j fields hk
    simp only [List.mem_cons, List.mem_singleton, not_or] at hk
    obtain ⟨h1, h2, h3, h4, h5, -⟩ := hk
    simp only [decodeMetadata, Json.asObj, reqField, bind, Except.bind, pure,
               Except.pure,
               lookup_cons_ne k "implementation" j fields (Ne.symm h1),
               lookup_cons_ne k "version" j fields (Ne.symm h2),
               lookup_cons_ne k "commit_sha" j fields (Ne.symm h3),
               lookup_cons_ne k "timestamp" j fields (Ne.symm h4),
               lookup_cons_ne k "platform" j fields (Ne.symm h5)]
  · intro k j fields hk
    simp only [List.mem_cons, List.mem_singleton, not_or] at hk
    obtain ⟨h1, h2, -⟩ := hk
    simp only [decodeBenchmarkReport, Json.asObj, reqField, bind, Except.bind,
               pure, Except.pure,
               lookup_cons_ne k "metadata" j fields (Ne.symm h1),
               lookup_cons_ne k "benchmarks" j fields (Ne.symm h2)]

/-- Witness for C8: an extra `"extra"` field on a `MetricValue` document is
ignored. -/
theorem unknown_fields_ignored_witness :
    decodeMetricValue (.obj [("extra", .num 1), ("value", .num 50),
        ("unit", .str "MB")]) =
      decodeMetricValue (.obj [("value", .num 50), ("unit", .str "MB")]) :=
  unknown_fields_ignored.1 "extra" (.num 1)
    [("value", .num 50), ("unit", .str "MB")] (by decide)

/-- Claim C9: confidence-bound pairing is not validated. A `MetricValue`
document with exactly one bound decodes successfully with the other bound
absent, encoding emits only the present bound, `with_bounds` records any
bounds without checking `lower ≤ value ≤ upper`, and a document violating the
ordering decodes without error. -/
theorem bounds_pairing_not_validated :
    (∀ (v lo : ℚ) (u : String),
        decodeMetricValue (.obj [("value", .num v), ("unit", .str u),
            ("lower_value", .num lo)]) =
          .ok { value := v, unit := u, lower_value := some lo,
                upper_value := none }) ∧
    (∀ (v hi : ℚ) (u : String),
        decodeMetricValue (.obj [("value", .num v), ("unit", .str u),
            ("upper_value", .num hi)]) =
          .ok { value := v, unit := u, lower_value := none,
                upper_value := some hi }) ∧
    (∀ (v lo : ℚ) (u : String),
        encodeMetricValue { value := v, unit := u, lower_value := some lo,
                            upper_value := none } =
          .obj [("value", .num v), ("unit", .str u),
                ("lower_value", .num lo)]) ∧
    (∀ (v lo hi : ℚ) (u : String),
        MetricValue.with_bounds v u lo hi =
          { value := v, unit := u, lower_value := some lo,
            upper_value := some hi }) ∧
    decodeMetricValue (.obj [("value", .num 1), ("unit", .str "ns"),
        ("lower_value", .num 5), ("upper_value", .num 2)]) =
      .ok { value := 1, unit := "ns", lower_value := some 5,
            upper_value := some 2 } := by
  refine ⟨?_, ?_, ?_, fun v lo hi u => rfl, rfl⟩
  · intro v lo u
    simp [decodeMetricValue, Json.asObj, Json.asNum, Json.asStr, Json.isNull,
          reqField, decodeOptWith, List.lookup, bind, Except.bind, pure,
          Except.pure, Except.map]
  · intro v hi u
    simp [decodeMetricValue, Json.asObj, Json.asNum, Json.asStr, Json.isNull,
          reqField, decodeOptWith, List.lookup, bind, Except.bind, pure,
          Except.pure, Except.map]
  · intro v lo u
    simp [encodeMetricValue, optFields]

